import Mathlib

/-!
Verification of the document-formatting-system repository.

Shallow embedding of the content-safety / fingerprinting / filtering core:
  * src/src/content_preservation.py   (ContentPreservationEngine)
  * src/multi_stage_formatter.py      (MultiStageFormatter)
  * src/legacy/src/safe_formatting.py (SafeFormattingEngine CSS generation)

Python strings are embedded as `List Char`.  The repository only ever feeds
ASCII (plus a few fixed symbol characters) through the case and whitespace
primitives, so `lower`, `upper`, `isupper`, `istitle` are embedded with their
ASCII semantics.  Python regular expressions are embedded by translating each
pattern literal into an explicit syntax tree (`RE`) and running a backtracking
matcher that reproduces Python's preference order (leftmost start, greedy
quantifiers, left-biased alternation, word boundaries `\b`, anchors).
`hashlib.sha256(...).hexdigest()` is embedded as an arbitrary function
parameter `hash : List Char → List Char`; no claim depends on the digest
beyond it being a fixed function of the input text.
-/

namespace DocFmt

/-! ## Python character primitives (ASCII semantics) -/

/-- Python regex `\d` on the ASCII range. -/
def isPyDigit (c : Char) : Bool :=
  decide (48 ≤ c.toNat) && decide (c.toNat ≤ 57)

/-- ASCII uppercase letter `A`-`Z`. -/
def isAsciiUpper (c : Char) : Bool :=
  decide (65 ≤ c.toNat) && decide (c.toNat ≤ 90)

/-- ASCII lowercase letter `a`-`z`. -/
def isAsciiLower (c : Char) : Bool :=
  decide (97 ≤ c.toNat) && decide (c.toNat ≤ 122)

/-- ASCII letter. -/
def isAsciiLetter (c : Char) : Bool :=
  isAsciiUpper c || isAsciiLower c

/-- Python regex `\w` on the ASCII range: letter, digit or underscore. -/
def isWordChar (c : Char) : Bool :=
  isAsciiLetter c || isPyDigit c || c == '_'

/-- Python `str.strip()` / regex `\s` whitespace set (ASCII part). -/
def isPySpace (c : Char) : Bool :=
  c == ' ' || c == '\t' || c == '\n' || c == '\r' || c == '\x0b' || c == '\x0c'

/-- Python `str.lower()` on one ASCII character. -/
def lowerChar (c : Char) : Char :=
  if isAsciiUpper c then Char.ofNat (c.toNat + 32) else c

/-- Python `str.upper()` on one ASCII character. -/
def upperChar (c : Char) : Char :=
  if isAsciiLower c then Char.ofNat (c.toNat - 32) else c

/-! ## Python string primitives over `List Char` -/

/-- Python `str.lower()`. -/
def pyLower (s : List Char) : List Char := s.map lowerChar

/-- Python `str.strip()`: remove leading and trailing whitespace. -/
def pyStrip (s : List Char) : List Char :=
  ((s.dropWhile isPySpace).reverse.dropWhile isPySpace).reverse

/-- Leading-segment test: `isPrefOf needle hay` is true when `hay` begins
with `needle`. -/
def isPrefOf : List Char → List Char → Bool
  | [], _ => true
  | _ :: _, [] => false
  | a :: as, b :: bs => a == b && isPrefOf as bs

/-- Python `s.startswith(t)`. -/
def pyStarts (s t : List Char) : Bool := isPrefOf t s

/-- Python `s.endswith(t)`. -/
def pyEnds (s t : List Char) : Bool := isPrefOf t.reverse s.reverse

/-- Python substring test `needle in hay`. -/
def pyIn (needle : List Char) : List Char → Bool
  | [] => needle.isEmpty
  | c :: t => isPrefOf needle (c :: t) || pyIn needle t

/-- Python `str.split()` (split on whitespace runs, dropping empty chunks). -/
def pySplit (s : List Char) : List (List Char) :=
  (s.foldr
    (fun c acc =>
      if isPySpace c then [] :: acc
      else
        match acc with
        | [] => [[c]]
        | w :: ws => (c :: w) :: ws)
    []).filter (fun w => !w.isEmpty)

/-- Python `str.isupper()` (ASCII): at least one letter and no lowercase letter. -/
def pyIsUpper (s : List Char) : Bool :=
  s.any isAsciiLetter && s.all (fun c => !isAsciiLower c)

/-- Helper for `pyIsTitle`: walks the string tracking whether the previous
character was cased and whether any cased character was seen. -/
def pyIsTitleGo : Bool → Bool → List Char → Bool
  | _, seenCased, [] => seenCased
  | prevCased, seenCased, c :: rest =>
    if isAsciiUpper c then
      if prevCased then false else pyIsTitleGo true true rest
    else if isAsciiLower c then
      if prevCased then pyIsTitleGo true true rest else false
    else
      pyIsTitleGo false seenCased rest

/-- Python `str.istitle()` (ASCII): uppercase letters only start words,
lowercase letters only continue them, and at least one cased character. -/
def pyIsTitle (s : List Char) : Bool := pyIsTitleGo false false s

/-- Python `'\n'.join(...)` and friends. -/
def pyJoin (sep : List Char) (parts : List (List Char)) : List Char :=
  List.intercalate sep parts

/-- Python `list(dict.fromkeys(xs))`: de-duplicate keeping first occurrences. -/
def pyDedupAux {α : Type} [DecidableEq α] (seen : List α) : List α → List α
  | [] => []
  | x :: xs => if seen.contains x then pyDedupAux seen xs else x :: pyDedupAux (x :: seen) xs

/-- De-duplication preserving first-seen order (`list(dict.fromkeys(xs))`). -/
def pyDedup {α : Type} [DecidableEq α] (xs : List α) : List α := pyDedupAux [] xs

/-! ## Regular-expression engine

The abstract syntax covers exactly the constructs used by the repository's
patterns: character classes, concatenation, left-biased alternation, greedy
star, the anchors `^` and `$`, and the word boundary `\b`.  Bounded
repetitions `{m}`, `{m,n}`, `{m,}`, `+` and `?` are expanded into this core
syntax by the smart constructors below, preserving Python's greedy preference
order (more repetitions tried first). -/

inductive RE : Type where
  | eps : RE
  | cls (p : Char → Bool) : RE
  | bos : RE
  | eos : RE
  | bnd : RE
  | seq (a b : RE) : RE
  | alt (a b : RE) : RE
  | star (a : RE) : RE

/-- Node count of a pattern, used to compute a generous fuel bound. -/
def reSize : RE → Nat
  | .eps => 1
  | .cls _ => 1
  | .bos => 1
  | .eos => 1
  | .bnd => 1
  | .seq a b => reSize a + reSize b + 1
  | .alt a b => reSize a + reSize b + 1
  | .star a => reSize a + 1

/-- Word-boundary test at a position given the previous character (if any)
and the rest of the input: true when exactly one side is a word character. -/
def wordB (prev : Option Char) (s : List Char) : Bool :=
  let pw := match prev with | none => false | some c => isWordChar c
  let nw := match s with | [] => false | c :: _ => isWordChar c
  pw != nw

/-- Backtracking matcher.  `mrun ic fuel r prev s` returns, in Python's
backtracking preference order, the list of `(previous character, remaining
input)` states reachable by matching `r` starting at the position whose
preceding character is `prev` and whose remaining input is `s`.  `ic` is the
`re.IGNORECASE` flag: a character class also accepts the case-swapped
character.  `fuel` bounds the recursion depth; callers pass a bound large
enough that it is never exhausted for the patterns of this repository. -/
def mrun (ic : Bool) : Nat → RE → Option Char → List Char → List (Option Char × List Char)
  | 0, _, _, _ => []
  | _ + 1, .eps, prev, s => [(prev, s)]
  | _ + 1, .bos, prev, s => if prev.isNone then [(prev, s)] else []
  | _ + 1, .eos, prev, s => if s.isEmpty then [(prev, s)] else []
  | _ + 1, .bnd, prev, s => if wordB prev s then [(prev, s)] else []
  | _ + 1, .cls p, _, s =>
    match s with
    | [] => []
    | c :: t =>
      if p c || (ic && (p (lowerChar c) || p (upperChar c))) then [(some c, t)] else []
  | fuel + 1, .seq a b, prev, s =>
    (mrun ic fuel a prev s).flatMap (fun pr => mrun ic fuel b pr.1 pr.2)
  | fuel + 1, .alt a b, prev, s =>
    mrun ic fuel a prev s ++ mrun ic fuel b prev s
  | fuel + 1, .star a, prev, s =>
    ((mrun ic fuel a prev s).filter (fun pr => pr.2.length < s.length)).flatMap
      (fun pr => mrun ic fuel (.star a) pr.1 pr.2) ++ [(prev, s)]

/-- Fuel that always suffices: pattern depth plus one star unfolding per
input character, with a wide margin. -/
def reFuel (r : RE) (s : List Char) : Nat :=
  (reSize r + 1) * (s.length + 2) + 1

/-- Length of the first (preferred) match of `r` at this exact position,
or `none` when `r` does not match here. -/
def reFirstLen (ic : Bool) (r : RE) (prev : Option Char) (s : List Char) : Option Nat :=
  match mrun ic (reFuel r s) r prev s with
  | [] => none
  | pr :: _ => some (s.length - pr.2.length)

/-- Helper for `reSearch`: try every start position left to right. -/
def reSearchAux (ic : Bool) (r : RE) : Option Char → List Char → Bool
  | prev, s =>
    (reFirstLen ic r prev s).isSome ||
      match s with
      | [] => false
      | c :: t => reSearchAux ic r (some c) t

/-- Python `re.search(pattern, s) is not None`. -/
def reSearch (ic : Bool) (r : RE) (s : List Char) : Bool :=
  reSearchAux ic r none s

/-- Python `re.match(pattern, s) is not None` (anchored at the start). -/
def reMatch (ic : Bool) (r : RE) (s : List Char) : Bool :=
  (reFirstLen ic r none s).isSome

/-- Worker for `reFindAll`, structurally recursive on fuel so that concrete
scans reduce inside the kernel. -/
def reFindAllGo (ic : Bool) (r : RE) : Nat → Option Char → List Char → List (List Char)
  | 0, _, _ => []
  | fuel + 1, prev, s =>
    match s with
    | [] =>
      match reFirstLen ic r prev [] with
      | some n => [List.take n []]
      | none => []
    | c :: t =>
      match reFirstLen ic r prev (c :: t) with
      | some n =>
        if 0 < n ∧ n ≤ (c :: t).length then
          (c :: t).take n :: reFindAllGo ic r fuel ((c :: t).take n).getLast? ((c :: t).drop n)
        else
          (c :: t).take n :: reFindAllGo ic r fuel (some c) t
      | none => reFindAllGo ic r fuel (some c) t

/-- Python `re.findall(pattern, s)` for group-free patterns: the list of
non-overlapping matched substrings, scanning left to right, advancing past
each match (and by one character past an empty match).  The fuel
`s.length + 1` always suffices as every step consumes at least one input
character. -/
def reFindAll (ic : Bool) (r : RE) (prev : Option Char) (s : List Char) : List (List Char) :=
  reFindAllGo ic r (s.length + 1) prev s

/-! ### Smart constructors mirroring the regex literals -/

/-- A literal character. -/
def rch (c : Char) : RE := .cls (fun x => x == c)

/-- A literal string. -/
def rstr (s : String) : RE :=
  s.toList.foldr (fun c r => RE.seq (rch c) r) .eps

/-- Concatenation of a pattern list. -/
def rcat (rs : List RE) : RE := rs.foldr RE.seq .eps

/-- Left-biased alternation `(a|b|...)` (Python tries alternatives in order). -/
def ralts : List RE → RE
  | [] => .cls (fun _ => false)
  | [r] => r
  | r :: rs => .alt r (ralts rs)

/-- Exactly `n` copies (`{n}`). -/
def reps (n : Nat) (r : RE) : RE :=
  rcat (List.replicate n r)

/-- Greedy `{0,n}`: prefer more repetitions. -/
def repUpTo : Nat → RE → RE
  | 0, _ => .eps
  | n + 1, r => .alt (.seq r (repUpTo n r)) .eps

/-- Greedy `{m,n}`. -/
def repRange (m n : Nat) (r : RE) : RE :=
  .seq (reps m r) (repUpTo (n - m) r)

/-- Greedy `{m,}`. -/
def repAtLeast (m : Nat) (r : RE) : RE :=
  .seq (reps m r) (.star r)

/-- Greedy `+`. -/
def rplus (r : RE) : RE := .seq r (.star r)

/-- Greedy `?`: prefer the match. -/
def ropt (r : RE) : RE := .alt r .eps

/-- Regex `\d`. -/
def rdigit : RE := .cls isPyDigit

/-- Regex `\s`. -/
def rspace : RE := .cls isPySpace

/-- Regex `\w`. -/
def rword : RE := .cls isWordChar

/-- Regex `.` (any character except newline). -/
def rdot : RE := .cls (fun c => !(c == '\n'))

/-- `\b(w1|w2|...)\b` for a word alternation, as in the safety patterns. -/
def rwords (ws : List String) : RE :=
  rcat [.bnd, ralts (ws.map rstr), .bnd]

/-! ## Pattern Library (ContentPreservationEngine.prohibited_patterns)

One `RE` value per regex literal of `content_preservation.py`, in source
order.  Comments quote the original pattern. -/

/-- `\b(step|procedure|process|method|instruction)\b` -/
def reProc1 : RE := rwords ["step", "procedure", "process", "method", "instruction"]

/-- `\b(shall|must|required|mandatory|prohibited)\b` -/
def reProc2 : RE := rwords ["shall", "must", "required", "mandatory", "prohibited"]

/-- `\b(warning|caution|danger|notice|alert)\b` -/
def reProc3 : RE := rwords ["warning", "caution", "danger", "notice", "alert"]

/-- `\b(follow|execute|perform|complete)\b.*\b(exactly|precisely)\b` -/
def reProc4 : RE :=
  rcat [rwords ["follow", "execute", "perform", "complete"], .star rdot,
        rwords ["exactly", "precisely"]]

/-- `\b[A-Z]{2,}\b`  (acronyms) -/
def reTech1 : RE := rcat [.bnd, repAtLeast 2 (.cls isAsciiUpper), .bnd]

/-- `\b\w+[-_]\w+\b`  (technical notation) -/
def reTech2 : RE :=
  rcat [.bnd, rplus rword, .cls (fun c => c == '-' || c == '_'), rplus rword, .bnd]

/-- `\b\d+\.\d+\.\d+\b`  (version numbers) -/
def reTech3 : RE :=
  rcat [.bnd, rplus rdigit, rch '.', rplus rdigit, rch '.', rplus rdigit, .bnd]

/-- `\b[a-zA-Z]+\d+[a-zA-Z]*\b`  (product codes) -/
def reTech4 : RE :=
  rcat [.bnd, rplus (.cls isAsciiLetter), rplus rdigit, .star (.cls isAsciiLetter), .bnd]

/-- `\b(API|SDK|HTTP|REST|JSON|XML)\b` -/
def reTech5 : RE := rwords ["API", "SDK", "HTTP", "REST", "JSON", "XML"]

/-- `\b(OAuth|SSL|TLS|HTTPS)\b` -/
def reTech6 : RE := rwords ["OAuth", "SSL", "TLS", "HTTPS"]

/-- `\b\d+\.\d+\b`  (decimal numbers) -/
def reNum1 : RE := rcat [.bnd, rplus rdigit, rch '.', rplus rdigit, .bnd]

/-- `\$\d+(?:,\d{3})*(?:\.\d{2})?\b`  (currency) -/
def reNum2 : RE :=
  rcat [rch '$', rplus rdigit, .star (rcat [rch ',', reps 3 rdigit]),
        ropt (rcat [rch '.', reps 2 rdigit]), .bnd]

/-- `\b\d+%\b`  (percentages) -/
def reNum3 : RE := rcat [.bnd, rplus rdigit, rch '%', .bnd]

/-- `\b\d{1,3}(?:,\d{3})*\b`  (large numbers) -/
def reNum4 : RE :=
  rcat [.bnd, repRange 1 3 rdigit, .star (rcat [rch ',', reps 3 rdigit]), .bnd]

/-- `\b\d+\s*(PSI|V|A|Hz|Â°[CF])\b`  (units).  The source file stores the
degree sign as the two characters `Â°` (U+00C2 U+00B0).  Note: in Python this
pattern has a capturing group, so `re.findall` would return only the unit
token; it never matches any text evaluated in this development, so the
whole-match slice is used uniformly. -/
def reNum5 : RE :=
  rcat [.bnd, rplus rdigit, .star rspace,
        ralts [rstr "PSI", rstr "V", rstr "A", rstr "Hz",
               rcat [rch 'Â', rch '°', .cls (fun c => c == 'C' || c == 'F')]],
        .bnd]

/-- Date pattern: backslash-b, digits, a dash-or-slash class, digits, a
dash-or-slash class, 2 to 4 digits, backslash-b. -/
def reNum6 : RE :=
  rcat [.bnd, rplus rdigit, .cls (fun c => c == '-' || c == '/'), rplus rdigit,
        .cls (fun c => c == '-' || c == '/'), repRange 2 4 rdigit, .bnd]

/-- `\b(FDA|ISO|OSHA|EPA|compliance|regulation)\b` -/
def reReg1 : RE := rwords ["FDA", "ISO", "OSHA", "EPA", "compliance", "regulation"]

/-- `\b(standard|specification|requirement|guideline)\b` -/
def reReg2 : RE := rwords ["standard", "specification", "requirement", "guideline"]

/-- `\b(approved|certified|validated|authorized)\b` -/
def reReg3 : RE := rwords ["approved", "certified", "validated", "authorized"]

/-- `\b(CE|UL|FCC|RoHS)\b.*\b(certified|compliant)\b` -/
def reReg4 : RE :=
  rcat [rwords ["CE", "UL", "FCC", "RoHS"], .star rdot, rwords ["certified", "compliant"]]

/-- `prohibited_patterns['procedural_language']` -/
def proceduralPatterns : List RE := [reProc1, reProc2, reProc3, reProc4]

/-- `prohibited_patterns['technical_terms']` -/
def technicalPatterns : List RE := [reTech1, reTech2, reTech3, reTech4, reTech5, reTech6]

/-- `prohibited_patterns['numerical_values']` -/
def numericalPatterns : List RE := [reNum1, reNum2, reNum3, reNum4, reNum5, reNum6]

/-- `prohibited_patterns['regulatory_compliance']` -/
def regulatoryPatterns : List RE := [reReg1, reReg2, reReg3, reReg4]

/-- `self.prohibited_patterns`: category name to pattern list, in the
dictionary's insertion order (procedural, technical, numerical, regulatory). -/
def prohibitedPatterns : List (List Char × List RE) :=
  [("procedural_language".toList, proceduralPatterns),
   ("technical_terms".toList, technicalPatterns),
   ("numerical_values".toList, numericalPatterns),
   ("regulatory_compliance".toList, regulatoryPatterns)]

/-- `\d+` (the bare-digit probe in `assess_paragraph_safety`). -/
def reAnyDigit : RE := rplus rdigit

/-! ## Content Preservation Engine (src/src/content_preservation.py) -/

/-- `ContentSafetyLevel`. -/
inductive ContentSafetyLevel : Type where
  | safe_to_modify : ContentSafetyLevel
  | content_critical : ContentSafetyLevel
  | requires_review : ContentSafetyLevel
deriving DecidableEq, Repr

/-- One `docx` paragraph as the engine sees it: its text and its style name. -/
structure Para where
  text : List Char
  styleName : List Char
deriving DecidableEq, Repr

/-- The slice of a `docx.Document` that the engine reads: the ordered
paragraph records and the number of tables (`len(doc.tables)` is the only
table datum used). -/
structure PyDocument where
  paragraphs : List Para
  tableCount : Nat
deriving DecidableEq, Repr

/-- `ContentFingerprint`.  The timestamp is an abstract tick supplied by the
caller, standing for `datetime.now()`. -/
structure ContentFingerprint where
  full_text_hash : List Char
  paragraph_hashes : List (List Char)
  structure_hash : List Char
  word_count : Nat
  character_count : Nat
  numerical_values : List (List Char)
  timestamp : Nat
deriving DecidableEq, Repr

/-- `ProhibitedZone`. -/
structure ProhibitedZone where
  zone_type : List Char
  start_paragraph : Nat
  end_paragraph : Nat
  content_hash : List Char
  safety_level : ContentSafetyLevel
  text_sample : List Char
deriving DecidableEq, Repr

/-- `ContentPreservationEngine.assess_paragraph_safety`: empty or
whitespace-only text is safe; otherwise any prohibited-pattern match (all
four categories, tested in order with `re.IGNORECASE`, first match wins)
is critical; otherwise any digit requires review; otherwise safe. -/
def assess_paragraph_safety (text : List Char) : ContentSafetyLevel :=
  if (pyStrip text).isEmpty then .safe_to_modify
  else if prohibitedPatterns.any (fun cat => cat.2.any (fun p => reSearch true p text)) then
    .content_critical
  else if reSearch false reAnyDigit text then .requires_review
  else .safe_to_modify

/-- The canonical full text of `create_content_fingerprint`:
`'\n'.join(paragraph.text for paragraph in doc.paragraphs if paragraph.text.strip())`. -/
def canonical_full_text (doc : PyDocument) : List Char :=
  pyJoin ['\n']
    ((doc.paragraphs.filter (fun p => !(pyStrip p.text).isEmpty)).map (fun p => p.text))

/-- The `structure_data` JSON of `create_content_fingerprint`:
`json.dumps({'paragraph_count': pc, 'table_count': tc, 'heading_count': hc}, sort_keys=True)`
(keys serialized in sorted order). -/
def structEncode (pc tc hc : Nat) : List Char :=
  ("\x7b\"heading_count\": " ++ toString hc ++ ", \"paragraph_count\": " ++ toString pc
    ++ ", \"table_count\": " ++ toString tc ++ "\x7d").toList

/-- `ContentPreservationEngine.create_content_fingerprint`.  `hash` stands for
`hashlib.sha256(· .encode('utf-8')).hexdigest()` and `now` for `datetime.now()`. -/
def create_content_fingerprint (hash : List Char → List Char) (now : Nat)
    (doc : PyDocument) : ContentFingerprint :=
  let full_text := canonical_full_text doc
  let nonEmpty := doc.paragraphs.filter (fun p => !(pyStrip p.text).isEmpty)
  { full_text_hash := hash full_text
    paragraph_hashes := nonEmpty.map (fun p => hash p.text)
    structure_hash :=
      hash (structEncode nonEmpty.length doc.tableCount
        ((doc.paragraphs.filter (fun p => pyStarts p.styleName "Heading".toList)).length))
    word_count := (pySplit full_text).length
    character_count := full_text.length
    numerical_values :=
      pyDedup (numericalPatterns.flatMap (fun p => reFindAll false p none full_text))
    timestamp := now }

/-- `ContentPreservationEngine.identify_prohibited_zones`, restricted to one
enumerated paragraph: empty-strip paragraphs are skipped; each category whose
pattern list has a match (the inner `break` leaves only the pattern loop)
contributes one CONTENT_CRITICAL zone. -/
def zonesForPara (hash : List Char → List Char) (i : Nat) (text : List Char) :
    List ProhibitedZone :=
  if (pyStrip text).isEmpty then []
  else
    prohibitedPatterns.flatMap (fun cat =>
      if cat.2.any (fun p => reSearch true p text) then
        [{ zone_type := cat.1
           start_paragraph := i
           end_paragraph := i
           content_hash := hash text
           safety_level := .content_critical
           text_sample := text.take 100 }]
      else [])

/-- `ContentPreservationEngine.identify_prohibited_zones` over the whole
document (`enumerate(doc.paragraphs)`). -/
def identify_prohibited_zones (hash : List Char → List Char) (doc : PyDocument) :
    List ProhibitedZone :=
  doc.paragraphs.enum.flatMap (fun ip => zonesForPara hash ip.1 ip.2.text)

/-- The integrity report of `validate_content_integrity` (success path). -/
structure IntegrityChecks where
  content_hash_match : Bool
  word_count_match : Bool
  character_count_match : Bool
  numerical_values_preserved : Bool
  missing_values : List (List Char)
  overall_valid : Bool
deriving DecidableEq, Repr

/-- `ContentPreservationEngine.validate_content_integrity`.  The source
initializes `numerical_values_preserved = True` and flips it while appending
each absent value to `missing_values`; that loop is the filter below. -/
def validate_content_integrity (hash : List Char → List Char)
    (original : ContentFingerprint) (processed_content : List Char) : IntegrityChecks :=
  let processed_hash := hash processed_content
  let missing := original.numerical_values.filter (fun v => !pyIn v processed_content)
  let chm := processed_hash == original.full_text_hash
  let wcm := (pySplit processed_content).length == original.word_count
  let ccm := processed_content.length == original.character_count
  let nvp := missing.isEmpty
  { content_hash_match := chm
    word_count_match := wcm
    character_count_match := ccm
    numerical_values_preserved := nvp
    missing_values := missing
    overall_valid := chm && wcm && ccm && nvp }

/-! ## Multi-Stage Formatter (src/multi_stage_formatter.py) -/

/-- `re.search(r'\.\x7b5,\x7d', text)`: five or more consecutive dots. -/
def reDots5 : RE := repAtLeast 5 (rch '.')

/-- `re.match(r'^[A-Z]+-\d+$', text)`: a whole-string page-reference code. -/
def rePageRef : RE :=
  rcat [.bos, rplus (.cls isAsciiUpper), rch '-', rplus rdigit, .eos]

/-- `re.search(r'^\d+\.\d+\s+.*\.\x7b3,\x7d\s*\d+', text)`: a TOC entry with
leader dots and a page number. -/
def reTocEntry : RE :=
  rcat [.bos, rplus rdigit, rch '.', rplus rdigit, rplus rspace, .star rdot,
        repAtLeast 3 (rch '.'), .star rspace, rplus rdigit]

/-- `re.search(r'page \d+', text_lower)`. -/
def rePageNum : RE := rcat [rstr "page ", rplus rdigit]

/-- `re.search(r'date:?\s*\d\x7b2\x7d-\d\x7b2\x7d-\d\x7b2\x7d', text_lower)`. -/
def reDateStamp : RE :=
  rcat [rstr "date", ropt (rch ':'), .star rspace,
        reps 2 rdigit, rch '-', reps 2 rdigit, rch '-', reps 2 rdigit]

/-- The filter predicate of `MultiStageFormatter.stage1_navigation_filter`:
the `should_filter` flag computed by its if/elif chain, in source order. -/
def shouldFilter1 (para : Para) : Bool :=
  let text := pyStrip para.text
  let text_lower := pyLower text
  if text.length < 3 then true
  else if text == "TABLE OF CONTENTS".toList then true
  else if pyIn "table of contents".toList text_lower then true
  else if text == "MASTER TABLE OF CONTENTS".toList then true
  else if pyIn "master table".toList text_lower then true
  else if pyIn "record of revisions".toList text_lower then true
  else if pyIn "revision highlights".toList text_lower then true
  else if pyIn "list of effective sections".toList text_lower then true
  else if pyIn "list of effective pages".toList text_lower then true
  else if reSearch false reDots5 text then true
  else if reMatch false rePageRef text then true
  else if reSearch false reTocEntry text then true
  else false

/-- `MultiStageFormatter.stage1_navigation_filter`: keep, in order, exactly
the paragraphs the chain does not filter. -/
def stage1_navigation_filter (paragraphs : List Para) : List Para :=
  paragraphs.filter (fun p => !shouldFilter1 p)

/-- The filter predicate of `MultiStageFormatter.stage2_metadata_filter`:
the `should_filter` flag computed by its if/elif chain, in source order;
the "intentionally left blank" tests come first. -/
def shouldFilter2 (para : Para) : Bool :=
  let text := pyStrip para.text
  let text_lower := pyLower text
  if text == "INTENTIONALLY LEFT BLANK".toList then true
  else if pyIn "intentionally left blank".toList text_lower then true
  else if pyIn "this page intentionally left blank".toList text_lower then true
  else if reSearch false rePageNum text_lower then true
  else if reSearch false (rstr "revision:") text_lower then true
  else if reSearch false (rstr "report #") text_lower then true
  else if pyIn "oae.".toList text_lower then true
  else if pyIn "company name".toList text_lower && text.length < 50 then true
  else if text == "FLIGHT ATTENDANT POLICIES & PROCEDURES HANDBOOK".toList then true
  else if pyIn "policies & procedures handbook".toList text_lower && text.length < 100 then true
  else if pyIn "flight crew training manual".toList text_lower && text.length < 100 then true
  else if reSearch false reDateStamp text_lower then true
  else false

/-- `MultiStageFormatter.stage2_metadata_filter`. -/
def stage2_metadata_filter (paragraphs : List Para) : List Para :=
  paragraphs.filter (fun p => !shouldFilter2 p)

/-- The `list_patterns` of `MultiStageFormatter._classify_paragraph`
(`re.match`, i.e. anchored at the start). -/
def listPatterns : List RE :=
  [rcat [.cls (fun c => c == '•' || c == '-' || c == '*' || c == '◦' || c == '►' || c == '○'),
         rplus rspace],
   rcat [rplus rdigit, rch '.', rplus rspace],
   rcat [.cls isAsciiLower, rch ')', rplus rspace],
   rcat [.cls isAsciiUpper, rch ')', rplus rspace],
   rcat [rch '(', .cls isAsciiLower, rch ')', rplus rspace],
   rcat [rch '(', .cls isAsciiUpper, rch ')', rplus rspace]]

/-- The `imperative_starts` list of `_classify_paragraph`. -/
def imperativeStarts : List (List Char) :=
  ["read,", "understand", "comply", "report", "maintain", "avoid",
   "use", "respect", "promote", "cooperate", "ensure", "follow",
   "wear", "keep", "replace", "check", "verify", "submit"].map String.toList

/-- The `modal_phrases` list of `_classify_paragraph`. -/
def modalPhrases : List (List Char) :=
  ["must ", "shall ", "will ", "should ", "are required to", "are responsible for"].map
    String.toList

/-- The explicit list-marker test of `_classify_paragraph` (its first rule). -/
def listPatternHit (text_clean : List Char) : Bool :=
  listPatterns.any (fun p => reMatch false p text_clean)

/-- The imperative-verb test of `_classify_paragraph` (its second rule). -/
def imperativeHit (text_lower : List Char) : Bool :=
  imperativeStarts.any (fun v => pyStarts text_lower v)

/-- The modal-phrase test of `_classify_paragraph` (its third rule). -/
def modalHit (text_lower : List Char) : Bool :=
  modalPhrases.any (fun m => pyIn m text_lower)

/-- `MultiStageFormatter._classify_paragraph`: ordered rules producing the
style label.  After the heading block falls through (short text that is
neither fully uppercase nor title case), control reaches the `NOTE:` test
and the `Body Text` default, exactly as in the source. -/
def classify_paragraph (text : List Char) : List Char :=
  let text_clean := pyStrip text
  let text_lower := pyLower text_clean
  if listPatternHit text_clean then "List Paragraph".toList
  else if imperativeHit text_lower then "List Paragraph".toList
  else if modalHit text_lower then "List Paragraph".toList
  else if text_clean.length < 100 && !pyEnds text_clean ".".toList then
    if pyIsUpper text_clean then
      if text_clean.length < 30 then "Heading 2".toList else "Heading 1".toList
    else if pyIsTitle text_clean then "Heading 3".toList
    else if pyStarts text_clean "NOTE:".toList then "Normal".toList
    else "Body Text".toList
  else if pyStarts text_clean "NOTE:".toList then "Normal".toList
  else "Body Text".toList

/-- One record of `stage3_classify_content`'s output. -/
structure ClassifiedPara where
  text : List Char
  style : List Char
  original_para : Para
deriving DecidableEq, Repr

/-- `MultiStageFormatter.stage3_classify_content`: one classified record per
survivor, in order, with the stripped text and its style label. -/
def stage3_classify_content (paragraphs : List Para) : List ClassifiedPara :=
  paragraphs.map (fun para =>
    { text := pyStrip para.text
      style := classify_paragraph (pyStrip para.text)
      original_para := para })

/-! ## Safe Formatting Engine (src/legacy/src/safe_formatting.py) -/

/-- `allowed_css_properties['visual_only']`. -/
def visual_only : List (List Char) :=
  ["font-family", "font-size", "font-weight", "font-style",
   "color", "background-color", "text-align", "line-height",
   "margin", "padding", "border", "border-collapse",
   "width", "height", "display", "float", "clear"].map String.toList

/-- `allowed_css_properties['layout_only']`. -/
def layout_only : List (List Char) :=
  ["margin-top", "margin-bottom", "margin-left", "margin-right",
   "padding-top", "padding-bottom", "padding-left", "padding-right",
   "text-indent", "vertical-align", "page-break-before", "page-break-after"].map
    String.toList

/-- `prohibited_properties`. -/
def prohibited_properties : List (List Char) :=
  ["content", "counter-increment", "counter-reset", "quotes", "text-transform"].map
    String.toList

/-- `SafeFormattingRule` (the `conditions` strings are informational). -/
structure SafeFormattingRule where
  element_type : List Char
  css_properties : List (List Char × List Char)
  conditions : List (List Char)
  safety_level : ContentSafetyLevel
deriving DecidableEq, Repr

/-- Helper building a rule from string literals. -/
def mkRule (et : String) (props : List (String × String)) (conds : List String) :
    SafeFormattingRule :=
  { element_type := et.toList
    css_properties := props.map (fun pv => (pv.1.toList, pv.2.toList))
    conditions := conds.map String.toList
    safety_level := .safe_to_modify }

/-- `SafeFormattingEngine._create_default_style_guide`, as the ordered
association list of the Python dict. -/
def default_style_guide : List (List Char × SafeFormattingRule) :=
  [("h1".toList, mkRule "h1"
      [("font-family", "Arial, sans-serif"), ("font-size", "18px"),
       ("font-weight", "bold"), ("color", "#000080"),
       ("margin-bottom", "12px"), ("margin-top", "16px")] ["is_main_heading"]),
   ("h2".toList, mkRule "h2"
      [("font-family", "Arial, sans-serif"), ("font-size", "14px"),
       ("font-weight", "bold"), ("color", "#333333"),
       ("margin-bottom", "8px"), ("margin-top", "12px")] ["is_section_heading"]),
   ("h3".toList, mkRule "h3"
      [("font-family", "Arial, sans-serif"), ("font-size", "13px"),
       ("font-weight", "bold"), ("color", "#666666"),
       ("margin-bottom", "6px"), ("margin-top", "10px")] ["is_subsection_heading"]),
   ("p".toList, mkRule "p"
      [("font-family", "Arial, sans-serif"), ("font-size", "12px"),
       ("line-height", "1.15"), ("margin-bottom", "6px")] ["is_body_text"]),
   ("table".toList, mkRule "table"
      [("border-collapse", "collapse"), ("width", "100%"),
       ("font-family", "Arial, sans-serif"), ("font-size", "12px"),
       ("margin-bottom", "12px")] ["is_data_table"]),
   ("td".toList, mkRule "td"
      [("border", "1px solid #ddd"), ("padding", "6px"), ("text-align", "left")]
      ["is_table_cell"]),
   ("th".toList, mkRule "th"
      [("border", "1px solid #ddd"), ("padding", "6px"),
       ("background-color", "#f2f2f2"), ("font-weight", "bold"),
       ("text-align", "left")] ["is_table_header"])]

/-- The per-rule allow-list filter of `_generate_safe_css`: a property is
emitted only if it belongs to `visual_only + layout_only` (others are
skipped with a warning). -/
def emittedRuleProps (rule : SafeFormattingRule) : List (List Char × List Char) :=
  rule.css_properties.filter (fun pv => (visual_only ++ layout_only).contains pv.1)

/-- The fixed opening CSS block appended by `_generate_safe_css` (reset and
base styles; braces written with escapes). -/
def cssBaseBlock : List Char :=
  ("\nbody \x7b\n    font-family: Arial, sans-serif;\n    line-height: 1.6;\n    margin: 40px;\n    max-width: 800px;\n    color: #333;\n\x7d\n\n.document-title \x7b\n    border-bottom: 2px solid #000080;\n    padding-bottom: 10px;\n    margin-bottom: 20px;\n\x7d").toList

/-- The fixed closing CSS block appended by `_generate_safe_css`
("safety-specific styling"): the `.preserved` and `.requires-review`
highlight rules, the `::before` annotation rules carrying a `content:`
property (the marker strings are the source file's literal characters),
the metadata block, and the print-media reset which again sets `content:`. -/
def cssSafetyBlock : List Char :=
  ("\n.preserved \x7b\n    /* Original formatting preserved for safety-critical content */\n    background-color: #fff9c4 !important;\n    border-left: 4px solid #f0ad4e !important;\n    padding: 8px !important;\n    margin: 4px 0 !important;\n    font-family: inherit !important;\n    font-size: inherit !important;\n\x7d\n\n.requires-review \x7b\n    /* Content that requires human review */\n    background-color: #e6f3ff !important;\n    border-left: 4px solid #007bff !important;\n    padding: 4px !important;\n\x7d\n\n.preserved::before \x7b\n    content: \"âš ï¸ PRESERVED: \";\n    font-weight: bold;\n    color: #8a6d3b;\n\x7d\n\n.requires-review::before \x7b\n    content: \"ðŸ‘ï¸ REVIEW: \";\n    font-weight: bold;\n    color: #0056b3;\n\x7d\n\n.document-metadata \x7b\n    margin-top: 40px;\n    padding-top: 20px;\n    border-top: 1px solid #ddd;\n    color: #666;\n    font-size: 11px;\n\x7d\n\n/* Print styles */\n@media print \x7b\n    .preserved, .requires-review \x7b\n        background-color: white !important;\n        border-left: 2px solid #000 !important;\n    \x7d\n    \n    .preserved::before, .requires-review::before \x7b\n        content: \"\";\n    \x7d\n\x7d").toList

/-- `SafeFormattingEngine._generate_safe_css`: the base block, one block per
style-guide rule containing only its allow-listed properties, and the safety
block, joined with blank lines. -/
def generate_safe_css (style_guide : List (List Char × SafeFormattingRule)) : List Char :=
  let ruleBlocks := style_guide.filterMap (fun er =>
    let properties := (emittedRuleProps er.2).map (fun pv =>
      "  ".toList ++ pv.1 ++ ": ".toList ++ pv.2 ++ ";".toList)
    if properties.isEmpty then none
    else some (er.1 ++ " \x7b\n".toList ++ pyJoin ['\n'] properties ++ "\n\x7d".toList))
  pyJoin "\n\n".toList ([cssBaseBlock] ++ ruleBlocks ++ [cssSafetyBlock])

/-- The identity digest, used to instantiate the abstract `hash` parameter in
concrete evaluations; none of the evaluated claims depends on the digest
beyond it being a function of the text. -/
def idHash : List Char → List Char := fun s => s

/-! ## Supporting lemmas -/

theorem isPrefOf_iff : ∀ (n h : List Char), isPrefOf n h = true ↔ n <+: h
  | [], h => by simp [isPrefOf]
  | a :: as, [] => by simp [isPrefOf]
  | a :: as, b :: bs => by
    rw [isPrefOf]
    simp only [Bool.and_eq_true, beq_iff_eq, List.cons_prefix_cons]
    exact and_congr_right fun _ => isPrefOf_iff as bs

theorem pyIn_iff : ∀ (h n : List Char), pyIn n h = true ↔ n <:+: h
  | [], n => by simp [pyIn, List.isEmpty_iff]
  | c :: t, n => by
    rw [pyIn]
    simp only [Bool.or_eq_true, isPrefOf_iff, pyIn_iff t n, List.infix_cons_iff]

theorem pyIn_of_sub {n h : List Char} (hi : n <:+: h) : pyIn n h = true :=
  (pyIn_iff h n).mpr hi

theorem mrun_star_ne_nil (ic : Bool) (a : RE) (p : Option Char) (s : List Char) :
    ∀ g, g ≠ 0 → mrun ic g (.star a) p s ≠ [] := by
  intro g hg
  match g, hg with
  | g + 1, _ => simp [mrun]

theorem mrun_anyDigit_nil (p : Option Char) :
    ∀ f, mrun false f reAnyDigit p [] = [] := by
  intro f
  match f with
  | 0 => simp [mrun]
  | f + 1 =>
    show (mrun false f (.cls isPyDigit) p []).flatMap _ = []
    match f with
    | 0 => simp [mrun]
    | f + 1 => simp [mrun]

theorem mrun_anyDigit_cons (p : Option Char) (c : Char) (t : List Char) :
    ∀ f, 2 ≤ f → (mrun false f reAnyDigit p (c :: t) ≠ [] ↔ isPyDigit c = true) := by
  intro f hf
  obtain ⟨g, rfl⟩ : ∃ g, f = g + 2 := ⟨f - 2, by omega⟩
  show ((mrun false (g + 1) (.cls isPyDigit) p (c :: t)).flatMap _ ≠ [] ↔ _)
  by_cases hd : isPyDigit c = true
  · have hstar := mrun_star_ne_nil false (.cls isPyDigit) (some c) t (g + 1) (by omega)
    simp [mrun, hd, hstar]
  · simp [mrun, hd]

theorem reFirstLen_isSome_iff (ic : Bool) (r : RE) (prev : Option Char) (s : List Char) :
    (reFirstLen ic r prev s).isSome = true ↔ mrun ic (reFuel r s) r prev s ≠ [] := by
  unfold reFirstLen
  cases h : mrun ic (reFuel r s) r prev s <;> simp [h]

theorem reFuel_ge_two (r : RE) (s : List Char) : 2 ≤ reFuel r s := by
  unfold reFuel
  have h1 : 1 ≤ reSize r + 1 := by omega
  have h2 : 2 ≤ s.length + 2 := by omega
  calc 2 ≤ 1 * 2 := by omega
  _ ≤ (reSize r + 1) * (s.length + 2) := Nat.mul_le_mul h1 h2
  _ ≤ (reSize r + 1) * (s.length + 2) + 1 := by omega

theorem reSearchAux_anyDigit : ∀ (s : List Char) (prev : Option Char),
    reSearchAux false reAnyDigit prev s = s.any isPyDigit := by
  intro s
  induction s with
  | nil =>
    intro prev
    rw [reSearchAux]
    simp [reFirstLen, mrun_anyDigit_nil]
  | cons c t ih =>
    intro prev
    rw [reSearchAux]
    have hhead : (reFirstLen false reAnyDigit prev (c :: t)).isSome = isPyDigit c := by
      by_cases hd : isPyDigit c = true
      · rw [hd]
        exact (reFirstLen_isSome_iff _ _ _ _).mpr
          ((mrun_anyDigit_cons prev c t _ (reFuel_ge_two _ _)).mpr hd)
      · have hd' : isPyDigit c = false := by simpa using hd
        have hns : (reFirstLen false reAnyDigit prev (c :: t)).isSome = false := by
          cases hs : (reFirstLen false reAnyDigit prev (c :: t)).isSome with
          | false => rfl
          | true =>
            exact absurd ((mrun_anyDigit_cons prev c t _ (reFuel_ge_two _ _)).mp
              ((reFirstLen_isSome_iff _ _ _ _).mp hs)) hd
        rw [hns, hd']
    rw [hhead, ih (some c), List.any_cons]

theorem reSearch_anyDigit (s : List Char) :
    reSearch false reAnyDigit s = s.any isPyDigit :=
  reSearchAux_anyDigit s none

theorem infix_take (l : List Char) (n : Nat) : l.take n <:+: l :=
  ⟨[], l.drop n, by simp⟩

theorem infix_of_infix_drop {x l : List Char} {n : Nat} (h : x <:+: l.drop n) :
    x <:+: l := by
  obtain ⟨s, t, hst⟩ := h
  exact ⟨l.take n ++ s, t, by rw [List.append_assoc, List.append_assoc, ← List.append_assoc s,
    hst, List.take_append_drop]⟩

theorem infix_cons_of_infix {x t : List Char} {c : Char} (h : x <:+: t) :
    x <:+: c :: t := by
  obtain ⟨s, u, hsu⟩ := h
  exact ⟨c :: s, u, by simp [hsu]⟩

theorem mem_reFindAllGo_sub (ic : Bool) (r : RE) :
    ∀ (fuel : Nat) (prev : Option Char) (s : List Char) (x : List Char),
      x ∈ reFindAllGo ic r fuel prev s → x <:+: s := by
  intro fuel
  induction fuel with
  | zero =>
    intro prev s x hx
    simp [reFindAllGo] at hx
  | succ k ih =>
    intro prev s x hx
    cases s with
    | nil =>
      simp only [reFindAllGo] at hx
      split at hx
      · simp at hx
        simp [hx]
      · simp at hx
    | cons a t =>
      simp only [reFindAllGo] at hx
      split at hx
      · rename_i n hfl
        split at hx
        · rcases List.mem_cons.mp hx with hx | hx
          · subst hx; exact infix_take _ n
          · exact infix_of_infix_drop (ih _ _ x hx)
        · rcases List.mem_cons.mp hx with hx | hx
          · subst hx; exact infix_take _ n
          · exact infix_cons_of_infix (ih _ _ x hx)
      · exact infix_cons_of_infix (ih _ _ x hx)

theorem mem_reFindAll_sub (ic : Bool) (r : RE) (prev : Option Char)
    (s : List Char) (x : List Char) (hx : x ∈ reFindAll ic r prev s) : x <:+: s :=
  mem_reFindAllGo_sub ic r (s.length + 1) prev s x hx

theorem mem_pyDedupAux {α : Type} [DecidableEq α] :
    ∀ (l : List α) (seen : List α) (x : α), x ∈ pyDedupAux seen l → x ∈ l := by
  intro l
  induction l with
  | nil => intro seen x hx; simp [pyDedupAux] at hx
  | cons a t ih =>
    intro seen x hx
    rw [pyDedupAux] at hx
    by_cases hc : seen.contains a
    · rw [if_pos hc] at hx
      exact List.mem_cons_of_mem a (ih seen x hx)
    · rw [if_neg hc] at hx
      rcases List.mem_cons.mp hx with hx | hx
      · simp [hx]
      · exact List.mem_cons_of_mem a (ih _ x hx)

theorem mem_pyDedup {α : Type} [DecidableEq α] {l : List α} {x : α}
    (hx : x ∈ pyDedup l) : x ∈ l :=
  mem_pyDedupAux l [] x hx

/-- Every extracted numerical value is a contiguous substring of the full
text it was extracted from. -/
theorem numerical_values_sub (hash : List Char → List Char) (now : Nat)
    (doc : PyDocument) :
    ∀ v ∈ (create_content_fingerprint hash now doc).numerical_values,
      v <:+: canonical_full_text doc := by
  intro v hv
  have hv' := mem_pyDedup hv
  obtain ⟨p, _, hp⟩ := List.mem_flatMap.mp hv'
  exact mem_reFindAll_sub false p none (canonical_full_text doc) v hp

/-! ## Claim theorems -/

/-- The §4.2 algorithm of the spec, written from its words: empty or
whitespace-only gives SAFE; otherwise testing every pattern of the four
safety categories in the fixed order procedural, technical, numerical,
regulatory, any match gives CRITICAL; otherwise a text containing at least
one digit gives REQUIRES_REVIEW; otherwise SAFE. -/
def assessSpecAlgorithm (text : List Char) : ContentSafetyLevel :=
  if (pyStrip text).isEmpty then .safe_to_modify
  else if proceduralPatterns.any (fun p => reSearch true p text)
      || (technicalPatterns.any (fun p => reSearch true p text)
      || (numericalPatterns.any (fun p => reSearch true p text)
      || regulatoryPatterns.any (fun p => reSearch true p text))) then
    .content_critical
  else if text.any isPyDigit then .requires_review
  else .safe_to_modify

/-- C1.  The safety classifier follows the spec's algorithm exactly: SAFE on
empty or whitespace-only text, CRITICAL as soon as any pattern of the four
categories (procedural, technical, numerical, regulatory, in that order)
matches case-insensitively, REQUIRES_REVIEW when only a bare digit is
present, SAFE otherwise; and the mixed example "Step 1: cost is 5 units"
(procedural keyword plus bare number) is CRITICAL, not REVIEW. -/
theorem c1_assess_matches_spec :
    (∀ text : List Char, assess_paragraph_safety text = assessSpecAlgorithm text) ∧
    assess_paragraph_safety "Step 1: cost is 5 units".toList =
      ContentSafetyLevel.content_critical ∧
    ("Step 1: cost is 5 units".toList).any isPyDigit = true := by
  refine ⟨?_, by decide, by decide⟩
  intro text
  unfold assess_paragraph_safety assessSpecAlgorithm
  rw [reSearch_anyDigit]
  simp only [prohibitedPatterns, proceduralPatterns, technicalPatterns,
    numericalPatterns, regulatoryPatterns, List.any_cons, List.any_nil,
    Bool.or_false, Bool.or_assoc]

/-- C9.  Two fingerprint computations over the same document with the same
digest agree on every field except the timestamp. -/
theorem c9_fingerprint_determinism (hash : List Char → List Char) (t1 t2 : Nat)
    (doc : PyDocument) :
    (create_content_fingerprint hash t1 doc).full_text_hash =
      (create_content_fingerprint hash t2 doc).full_text_hash ∧
    (create_content_fingerprint hash t1 doc).paragraph_hashes =
      (create_content_fingerprint hash t2 doc).paragraph_hashes ∧
    (create_content_fingerprint hash t1 doc).structure_hash =
      (create_content_fingerprint hash t2 doc).structure_hash ∧
    (create_content_fingerprint hash t1 doc).word_count =
      (create_content_fingerprint hash t2 doc).word_count ∧
    (create_content_fingerprint hash t1 doc).character_count =
      (create_content_fingerprint hash t2 doc).character_count ∧
    (create_content_fingerprint hash t1 doc).numerical_values =
      (create_content_fingerprint hash t2 doc).numerical_values :=
  ⟨rfl, rfl, rfl, rfl, rfl, rfl⟩

/-- C3.  Validating the exact canonical full text used by the fingerprint
builder passes all four integrity checks. -/
theorem c3_round_trip (hash : List Char → List Char) (now : Nat) (doc : PyDocument) :
    (validate_content_integrity hash (create_content_fingerprint hash now doc)
      (canonical_full_text doc)).overall_valid = true := by
  have hnv : ∀ v ∈ (create_content_fingerprint hash now doc).numerical_values,
      pyIn v (canonical_full_text doc) = true := fun v hv =>
    pyIn_of_sub (numerical_values_sub hash now doc v hv)
  have hmiss : (create_content_fingerprint hash now doc).numerical_values.filter
      (fun v => !pyIn v (canonical_full_text doc)) = [] := by
    rw [List.filter_eq_nil_iff]
    intro v hv
    simp [hnv v hv]
  simp only [validate_content_integrity]
  rw [hmiss]
  simp [create_content_fingerprint]

/-- C5.  The integrity report's `numerical_values_preserved` is true exactly
when every fingerprinted value occurs as a literal substring of the candidate
text, `missing_values` holds exactly the absent values, and `overall_valid`
is the conjunction of the four checks. -/
theorem c5_validate_characterization (hash : List Char → List Char)
    (fp : ContentFingerprint) (cand : List Char) :
    ((validate_content_integrity hash fp cand).numerical_values_preserved = true ↔
      ∀ v ∈ fp.numerical_values, pyIn v cand = true) ∧
    (∀ v : List Char, v ∈ (validate_content_integrity hash fp cand).missing_values ↔
      v ∈ fp.numerical_values ∧ pyIn v cand = false) ∧
    (validate_content_integrity hash fp cand).overall_valid =
      ((validate_content_integrity hash fp cand).content_hash_match &&
       (validate_content_integrity hash fp cand).word_count_match &&
       (validate_content_integrity hash fp cand).character_count_match &&
       (validate_content_integrity hash fp cand).numerical_values_preserved) := by
  refine ⟨?_, ?_, rfl⟩
  · simp [validate_content_integrity, List.isEmpty_iff, List.filter_eq_nil_iff]
  · intro v
    simp [validate_content_integrity, List.mem_filter]

/-- C5 witness: a concrete fingerprint and candidate discharging the
membership hypotheses. -/
theorem c5_validate_witness :
    (validate_content_integrity idHash
      { full_text_hash := "h".toList, paragraph_hashes := [],
        structure_hash := "s".toList, word_count := 1, character_count := 2,
        numerical_values := ["15".toList], timestamp := 0 }
      "15".toList).numerical_values_preserved = true :=
  (c5_validate_characterization idHash
    { full_text_hash := "h".toList, paragraph_hashes := [],
      structure_hash := "s".toList, word_count := 1, character_count := 2,
      numerical_values := ["15".toList], timestamp := 0 }
    "15".toList).1.mpr (by decide)

/-- C4.  Blank-page guarantee: whatever paragraph sequence reaches Stage 2
(so regardless of what Stage 1 removed), no surviving paragraph's stripped,
lower-cased text contains "intentionally left blank"; indeed any paragraph
containing it is filtered (the check heads Stage 2's rule chain). -/
theorem c4_blank_page_guarantee :
    (∀ (paragraphs : List Para) (p : Para), p ∈ stage2_metadata_filter paragraphs →
      pyIn "intentionally left blank".toList (pyLower (pyStrip p.text)) = false) ∧
    (∀ p : Para, pyIn "intentionally left blank".toList (pyLower (pyStrip p.text)) = true →
      shouldFilter2 p = true) := by
  have key : ∀ p : Para,
      pyIn "intentionally left blank".toList (pyLower (pyStrip p.text)) = true →
      shouldFilter2 p = true := by
    intro p h
    simp only [shouldFilter2]
    simp
    exact Or.inr (Or.inl (by simpa using h))
  refine ⟨?_, key⟩
  intro paragraphs p hp
  have hf : shouldFilter2 p = false := by
    have hm := (List.mem_filter.mp hp).2
    simpa using hm
  by_contra hc
  have hin : pyIn "intentionally left blank".toList (pyLower (pyStrip p.text)) = true := by
    cases hx : pyIn "intentionally left blank".toList (pyLower (pyStrip p.text)) with
    | false => exact absurd hx hc
    | true => rfl
  rw [key p hin] at hf
  exact Bool.true_eq_false.mp hf

/-- C4 witness: a kept ordinary paragraph and a filtered blank-page marker. -/
theorem c4_blank_page_witness :
    pyIn "intentionally left blank".toList
      (pyLower (pyStrip ("A perfectly ordinary sentence without markers".toList))) = false ∧
    shouldFilter2 { text := "This Page Intentionally Left Blank".toList,
                    styleName := "Normal".toList } = true :=
  ⟨c4_blank_page_guarantee.1
      [{ text := "A perfectly ordinary sentence without markers".toList,
         styleName := "Normal".toList }]
      { text := "A perfectly ordinary sentence without markers".toList,
        styleName := "Normal".toList } (by decide),
   c4_blank_page_guarantee.2
      { text := "This Page Intentionally Left Blank".toList,
        styleName := "Normal".toList } (by decide)⟩

/-- C10.  Stage 1 and Stage 2 return sublists of their input (kept
paragraphs unchanged, in order, nothing added), and Stage 3 emits exactly
one record per survivor, in order, holding the survivor itself and its
stripped text. -/
theorem c10_pipeline_shape :
    (∀ ps : List Para, (stage1_navigation_filter ps).Sublist ps) ∧
    (∀ ps : List Para, (stage2_metadata_filter ps).Sublist ps) ∧
    (∀ ps : List Para,
      (stage3_classify_content ps).map (fun c => c.original_para) = ps) ∧
    (∀ ps : List Para, ∀ c ∈ stage3_classify_content ps,
      c.text = pyStrip c.original_para.text ∧
      c.style = classify_paragraph (pyStrip c.original_para.text)) := by
  refine ⟨fun ps => List.filter_sublist ps, fun ps => List.filter_sublist ps, ?_, ?_⟩
  · intro ps
    unfold stage3_classify_content
    rw [List.map_map]
    exact List.map_id ps
  · intro ps c hc
    obtain ⟨p, _, rfl⟩ := List.mem_map.mp hc
    exact ⟨rfl, rfl⟩

/-- C10 witness: the pipeline-shape facts at a concrete paragraph list. -/
theorem c10_pipeline_witness :
    (stage1_navigation_filter
      [{ text := " Example body sentence ".toList, styleName := "Normal".toList }]).Sublist
      [{ text := " Example body sentence ".toList, styleName := "Normal".toList }] ∧
    ({ text := pyStrip " Example body sentence ".toList,
       style := classify_paragraph (pyStrip " Example body sentence ".toList),
       original_para := { text := " Example body sentence ".toList,
                          styleName := "Normal".toList } } : ClassifiedPara).text =
      pyStrip " Example body sentence ".toList :=
  ⟨c10_pipeline_shape.1 _,
   (c10_pipeline_shape.2.2.2
      [{ text := " Example body sentence ".toList, styleName := "Normal".toList }]
      { text := pyStrip " Example body sentence ".toList,
        style := classify_paragraph (pyStrip " Example body sentence ".toList),
        original_para := { text := " Example body sentence ".toList,
                           styleName := "Normal".toList } }
      (by decide)).1⟩

/-- The document holding the spec's end-to-end example paragraph. -/
def c2doc : PyDocument :=
  { paragraphs := [{ text := "Total cost is $15,000.00 with 15% discount.".toList,
                     styleName := "Normal".toList }],
    tableCount := 0 }

/-- C2, counterexample to the claimed behavior: on the paragraph
"Total cost is $15,000.00 with 15% discount." the classifier returns
CONTENT_CRITICAL (not REQUIRES_REVIEW), because with `re.IGNORECASE` the
acronym pattern matches "Total" and the currency pattern of the (itself
prohibited) numerical category matches "$15,000.00"; and the fingerprint's
`numerical_values` does not contain "15%", because the percentage pattern's
trailing word boundary fails before the following space. -/
theorem c2_example_eval :
    assess_paragraph_safety "Total cost is $15,000.00 with 15% discount.".toList =
      ContentSafetyLevel.content_critical ∧
    assess_paragraph_safety "Total cost is $15,000.00 with 15% discount.".toList ≠
      ContentSafetyLevel.requires_review ∧
    "$15,000.00".toList ∈ (create_content_fingerprint idHash 0 c2doc).numerical_values ∧
    "15%".toList ∉ (create_content_fingerprint idHash 0 c2doc).numerical_values ∧
    (create_content_fingerprint idHash 0 c2doc).numerical_values =
      ["000.00".toList, "$15,000.00".toList, "15,000".toList, "00".toList, "15".toList] := by
  refine ⟨by decide, by decide, by decide, by decide, by decide⟩

/-- The single-paragraph document exhibiting the multi-zone behavior. -/
def c6doc : PyDocument :=
  { paragraphs := [{ text := "Step 1: use the API.".toList,
                     styleName := "Normal".toList }],
    tableCount := 0 }

/-- C6.  Every prohibited zone is CONTENT_CRITICAL (proved for all documents
and digests); but the paragraph "Step 1: use the API." yields three zones,
one per matching category, because the `break` leaves only the inner pattern
loop — refuting the at-most-one-zone-per-paragraph half of the claim. -/
theorem c6_zones :
    (∀ (hash : List Char → List Char) (doc : PyDocument)
       (z : ProhibitedZone), z ∈ identify_prohibited_zones hash doc →
         z.safety_level = ContentSafetyLevel.content_critical) ∧
    (identify_prohibited_zones idHash c6doc).length = 3 ∧
    (identify_prohibited_zones idHash c6doc).map (fun z => z.zone_type) =
      ["procedural_language".toList, "technical_terms".toList,
       "numerical_values".toList] := by
  refine ⟨?_, by decide, by decide⟩
  intro hash doc z hz
  obtain ⟨ip, _, hzp⟩ := List.mem_flatMap.mp hz
  unfold zonesForPara at hzp
  by_cases hs : (pyStrip ip.2.text).isEmpty
  · rw [if_pos hs] at hzp
    simp at hzp
  · rw [if_neg hs] at hzp
    obtain ⟨cat, _, hcz⟩ := List.mem_flatMap.mp hzp
    by_cases hm : cat.2.any (fun p => reSearch true p ip.2.text)
    · rw [if_pos hm] at hcz
      rcases List.mem_singleton.mp hcz with rfl
      rfl
    · rw [if_neg hm] at hcz
      simp at hcz

/-- C6 witness: the general CRITICAL-level fact applied to a concrete zone
of the example document. -/
theorem c6_zones_witness :
    ∃ z ∈ identify_prohibited_zones idHash c6doc,
      z.safety_level = ContentSafetyLevel.content_critical := by
  have hz : { zone_type := "procedural_language".toList, start_paragraph := 0,
              end_paragraph := 0, content_hash := "Step 1: use the API.".toList,
              safety_level := ContentSafetyLevel.content_critical,
              text_sample := "Step 1: use the API.".toList } ∈
      identify_prohibited_zones idHash c6doc := by decide
  exact ⟨_, hz, c6_zones.1 idHash c6doc _ hz⟩


/-- Heading-tier priority written from the spec's words: §4.5 calls the
title-case tier ("Heading 3") the lower-priority heading tier, so priority
decreases as the heading number grows; rank 1 ("Heading 1") is the
highest-priority tier, and a smaller rank means higher priority.  Labels
that are not headings rank 100. -/
def specHeadingPriorityRank (style : List Char) : Nat :=
  if style == "Heading 1".toList then 1
  else if style == "Heading 2".toList then 2
  else if style == "Heading 3".toList then 3
  else 100

/-- C7, counterexample: two all-caps survivors that match no list rule and
do not end in a period.  "SAFETY" (6 chars, under 30) is assigned
"Heading 2" while the 38-char text is assigned "Heading 1", so the shorter
text receives the numerically larger, i.e. lower-priority, heading tier --
not a higher-priority one as claimed. -/
theorem c7_heading_counterexample :
    classify_paragraph "SAFETY".toList = "Heading 2".toList ∧
    classify_paragraph "EMERGENCY EQUIPMENT LOCATIONS OVERVIEW".toList =
      "Heading 1".toList ∧
    ("SAFETY".toList).length < 30 ∧
    30 ≤ ("EMERGENCY EQUIPMENT LOCATIONS OVERVIEW".toList).length ∧
    ¬ specHeadingPriorityRank (classify_paragraph "SAFETY".toList) <
        specHeadingPriorityRank
          (classify_paragraph "EMERGENCY EQUIPMENT LOCATIONS OVERVIEW".toList) := by
  refine ⟨by decide, by decide, by decide, by decide, by decide⟩

/-- C7 as amended: a stripped survivor shorter than 100 characters that
does not end in a period, is fully uppercase, and matched none of the three
earlier list rules is assigned a heading label -- "Heading 2" when shorter
than 30 characters and "Heading 1" (the higher-priority tier) otherwise. -/
theorem c7_heading_amended (text : List Char)
    (h1 : (pyStrip text).length < 100)
    (h2 : pyEnds (pyStrip text) ".".toList = false)
    (h3 : pyIsUpper (pyStrip text) = true)
    (h4 : listPatternHit (pyStrip text) = false)
    (h5 : imperativeHit (pyLower (pyStrip text)) = false)
    (h6 : modalHit (pyLower (pyStrip text)) = false) :
    classify_paragraph text =
      if (pyStrip text).length < 30 then "Heading 2".toList else "Heading 1".toList := by
  have h2' : pyEnds (pyStrip text) ['.'] = false := by simpa using h2
  simp [classify_paragraph, h1, h2', h3, h4, h5, h6]

/-- C7 witness: "SAFETY" satisfies every hypothesis of the amended theorem
and receives "Heading 2". -/
theorem c7_heading_witness :
    ((pyStrip "SAFETY".toList).length < 100 ∧
     pyEnds (pyStrip "SAFETY".toList) ".".toList = false ∧
     pyIsUpper (pyStrip "SAFETY".toList) = true ∧
     listPatternHit (pyStrip "SAFETY".toList) = false ∧
     imperativeHit (pyLower (pyStrip "SAFETY".toList)) = false ∧
     modalHit (pyLower (pyStrip "SAFETY".toList)) = false) ∧
    classify_paragraph "SAFETY".toList = "Heading 2".toList :=
  ⟨⟨by decide, by decide, by decide, by decide, by decide, by decide⟩,
   (c7_heading_amended "SAFETY".toList (by decide) (by decide) (by decide)
      (by decide) (by decide) (by decide)).trans (by decide)⟩

set_option maxRecDepth 40000 in
/-- C8.  Every property emitted for a style-guide rule (the path used for
SAFE paragraphs) passes the visual/layout allow-list filter; but the CSS the
engine emits does contain the content-affecting property `content:` -- it is
hard-coded in the `.preserved::before` / `.requires-review::before`
annotation rules and the print-media reset of the safety block, so
content-affecting properties do appear in the emitted output (the repo's own
`test_css_generation` asserts the opposite and would fail). -/
theorem c8_css_allowlist_and_content :
    (∀ (rule : SafeFormattingRule) (pv : List Char × List Char),
      pv ∈ emittedRuleProps rule →
        (visual_only ++ layout_only).contains pv.1 = true) ∧
    pyIn "content:".toList (generate_safe_css default_style_guide) = true := by
  refine ⟨?_, by decide⟩
  intro rule pv hpv
  exact (List.mem_filter.mp hpv).2

/-- C8 witness: the allow-list fact applied to a concrete rule and
property. -/
theorem c8_css_witness :
    (visual_only ++ layout_only).contains "font-family".toList = true :=
  c8_css_allowlist_and_content.1
    (mkRule "p" [("font-family", "Arial, sans-serif")] [])
    ("font-family".toList, "Arial, sans-serif".toList) (by decide)

end DocFmt
